import Mathlib

/-!
Shallow embedding of the PDF outline extractor (`src/1a/main.py`) and the
persona-driven section ranker (`src/1b/main.py`).

Python strings are modelled as `String` (sequences of code points, ASCII
semantics for case conversion and character classes), Python floats as `ℚ`,
and fallible external collaborators (PDF decoding, NLTK) as explicit
`Except`/function parameters.  Python's stable `list.sort` is modelled by
`List.insertionSort`, which is stable for total preorders, hence produces
the same output as any stable sort.
-/

namespace PyStr

/-- Python `\s` / `str.strip` whitespace class, ASCII fragment. -/
def pyIsSpace (c : Char) : Bool :=
  c = ' ' || c = '\t' || c = '\n' || c = '\r' || c = '\x0b' || c = '\x0c'

/-- Python `str.strip()` on a list of code points. -/
def pyStripList (cs : List Char) : List Char :=
  ((cs.dropWhile pyIsSpace).reverse.dropWhile pyIsSpace).reverse

/-- Python `str.strip()`. -/
def pyStrip (s : String) : String := String.mk (pyStripList s.data)

/-- Python `str.lower()`, ASCII fragment. -/
def pyLower (s : String) : String := String.mk (s.data.map Char.toLower)

/-- ASCII `[A-Z]`. -/
def isUpperAZ (c : Char) : Bool := 'A' ≤ c && c ≤ 'Z'

/-- ASCII `[a-z]`. -/
def isLowerAZ (c : Char) : Bool := 'a' ≤ c && c ≤ 'z'

/-- ASCII `[a-zA-Z0-9]`. -/
def isAlnumAZ (c : Char) : Bool := isUpperAZ c || isLowerAZ c || c.isDigit

/-- Contiguous-substring test (`p in s` for Python strings). -/
def infixOf [BEq α] (p : List α) : List α → Bool
  | [] => p.isEmpty
  | a :: s => p.isPrefixOf (a :: s) || infixOf p s

/-- Python code-point comparison `s <= t` on strings, as used by tuple sort keys. -/
def listLexLe : List Char → List Char → Bool
  | [], _ => true
  | _ :: _, [] => false
  | a :: as, b :: bs => if a < b then true else if b < a then false else listLexLe as bs

/-- One step of Python `str.split()': accumulate the current word (reversed). -/
def pySplitAux : List Char → List Char → List (List Char)
  | acc, [] => if acc.isEmpty then [] else [acc.reverse]
  | acc, c :: cs =>
    if pyIsSpace c then
      if acc.isEmpty then pySplitAux [] cs else acc.reverse :: pySplitAux [] cs
    else pySplitAux (c :: acc) cs

/-- Python `str.split()` with no argument: maximal runs of non-whitespace. -/
def pySplit (cs : List Char) : List (List Char) := pySplitAux [] cs

/-- One step of collapsing whitespace runs (`re.sub(r"\s+", " ", s)`);
the boolean records whether the previous character was whitespace. -/
def collapseWsAux : Bool → List Char → List Char
  | _, [] => []
  | prevSpace, c :: cs =>
    if pyIsSpace c then
      if prevSpace then collapseWsAux true cs else ' ' :: collapseWsAux true cs
    else c :: collapseWsAux false cs

/-- `re.sub(r"\s+", " ", s)`: replace each maximal whitespace run by one space. -/
def collapseWs (cs : List Char) : List Char := collapseWsAux false cs

/-- Python `str.isupper()`, ASCII fragment: some cased character and no
lowercase character. -/
def pyIsUpper (cs : List Char) : Bool :=
  cs.any (fun c => isUpperAZ c || isLowerAZ c) && !cs.any isLowerAZ

/-- First-occurrence deduplication, the key order of a Python dict. -/
def dedupFirst [DecidableEq α] (l : List α) : List α :=
  l.foldl (fun ks a => if a ∈ ks then ks else ks ++ [a]) []

/-- Consume `\d+` (one or more ASCII digits), returning the rest on success. -/
def chompDigits (cs : List Char) : Option (List Char) :=
  let ds := cs.takeWhile Char.isDigit
  if ds.isEmpty then none else some (cs.drop ds.length)

/-- Consume one expected character. -/
def expectChar (c : Char) : List Char → Option (List Char)
  | x :: rest => if x = c then some rest else none
  | [] => none

/-- Does the list start with a whitespace character (`\s+` can match here)? -/
def startsWithSpace : List Char → Bool
  | w :: _ => pyIsSpace w
  | [] => false

/-- `re.match(r"^\d+[\.\)]\s+", s)`. -/
def matchNumDotParen (cs : List Char) : Bool :=
  match chompDigits cs with
  | some (p :: w :: _) => (p = '.' || p = ')') && pyIsSpace w
  | _ => false

/-- `re.match(r"^\d+\.\s+", s)`. -/
def matchNum1 (cs : List Char) : Bool :=
  match (chompDigits cs).bind (expectChar '.') with
  | some rest => startsWithSpace rest
  | none => false

/-- `re.match(r"^\d+\.\d+\s+", s)`. -/
def matchNum2 (cs : List Char) : Bool :=
  match ((chompDigits cs).bind (expectChar '.')).bind chompDigits with
  | some rest => startsWithSpace rest
  | none => false

/-- `re.match(r"^\d+\.\d+\.\d+\s+", s)`. -/
def matchNum3 (cs : List Char) : Bool :=
  match ((((chompDigits cs).bind (expectChar '.')).bind chompDigits).bind
      (expectChar '.')).bind chompDigits with
  | some rest => startsWithSpace rest
  | none => false

/-- `re.match(r"^\d+$", s)`: non-empty and all digits. -/
def matchAllDigits (cs : List Char) : Bool := !cs.isEmpty && cs.all Char.isDigit

/-- Consume `[A-Z][a-z]+` (a Title-Case word), returning the rest on success. -/
def tcWord : List Char → Option (List Char)
  | [] => none
  | c :: rest =>
    if isUpperAZ c then
      let ls := rest.takeWhile isLowerAZ
      if ls.isEmpty then none else some (rest.drop ls.length)
    else none

/-- Tail of the Title-Case pattern: `(\s+[A-Z][a-z]+)*:?\s*$`.  Greedy
matching is complete here because after a maximal `[a-z]+` run only
whitespace, a colon or the end can continue the pattern. -/
def tcTail : Nat → List Char → Bool
  | _, [] => true
  | 0, _ => false
  | fuel + 1, s =>
    if s.all pyIsSpace then true
    else
      match s with
      | ':' :: t => t.all pyIsSpace
      | _ =>
        let ws := s.takeWhile pyIsSpace
        if ws.isEmpty then false
        else
          match tcWord (s.drop ws.length) with
          | some rest => tcTail fuel rest
          | none => false

/-- `re.match(r"^[A-Z][a-z]+(\s+[A-Z][a-z]+)*:?\s*$", s)`. -/
def matchTitleCase (cs : List Char) : Bool :=
  match tcWord cs with
  | some rest => tcTail rest.length rest
  | none => false

end PyStr

namespace Glyphs

open PyStr

/-- One positioned character record, as handed over by the PDF-decoding
collaborator (`pdfplumber` char dict).  A missing `size` key is `none`. -/
structure Glyph where
  text : String
  size : Option ℚ
  fontname : String
  top : ℚ
  x0 : ℚ
deriving DecidableEq

/-- `char.get('size', 12)`. -/
def sizeVal (g : Glyph) : ℚ := g.size.getD 12

/-- `[char.get('size', 12) for char in chars if char.get('size')]`:
sizes that are present and non-zero (Python truthiness). -/
def truthySizes (gs : List Glyph) : List ℚ :=
  gs.filterMap fun g =>
    match g.size with
    | some s => if s = 0 then none else some s
    | none => none

/-- Python `max` of a list, 0 for the empty list (callers guard emptiness). -/
def listMax : List ℚ → ℚ
  | [] => 0
  | q :: qs => qs.foldl max q

/-- Banker's rounding of a rational to an integer (Python `round`). -/
def roundHalfEven (y : ℚ) : ℤ :=
  let f : ℤ := ⌊y⌋
  let r := y - f
  if r < 1/2 then f else if r > 1/2 then f + 1 else if 2 ∣ f then f else f + 1

/-- Python `round(x, 1)`. -/
def round1 (x : ℚ) : ℚ := (roundHalfEven (x * 10) : ℚ) / 10

/-- Stable left-to-right order inside one line: `sort(key=lambda x: x.get('x0', 0))`. -/
def xLe (a b : Glyph) : Prop := a.x0 ≤ b.x0

instance : DecidableRel xLe := fun a b => inferInstanceAs (Decidable (a.x0 ≤ b.x0))

/-- Group a page's chars into lines by `round(top, 1)` in dict insertion
order, each line sorted by `x0` (stable). -/
def page_lines (chars : List Glyph) : List (List Glyph) :=
  (dedupFirst (chars.map fun c => round1 c.top)).map fun y =>
    List.insertionSort xLe (chars.filter fun c => round1 c.top = y)

/-- `''.join(char text).strip()` for one line. -/
def line_text (line : List Glyph) : String :=
  pyStrip (String.join (line.map (·.text)))

/-- Largest font size among a line's chars with truthy sizes, default 12. -/
def line_font_size (line : List Glyph) : ℚ :=
  let lfs := truthySizes line
  if lfs.isEmpty then 12 else listMax lfs

/-- `any('bold' in name.lower() for name in font_names if name)`. -/
def line_is_bold (line : List Glyph) : Bool :=
  line.any fun c => infixOf "bold".data (c.fontname.data.map Char.toLower)

end Glyphs

namespace R1a

open PyStr Glyphs

/-- `PDFOutlineExtractor.heading_keywords`. -/
def heading_keywords : List String :=
  ["introduction", "background", "overview", "summary", "conclusion",
   "methodology", "approach", "requirements", "specifications", "goals",
   "objectives", "timeline", "milestones", "deliverables", "references"]

/-- `PDFOutlineExtractor.is_likely_heading` (`src/1a/main.py:62`). -/
def is_likely_heading (text : String) (font_size : ℚ) (is_bold : Bool)
    (avg_font_size : ℚ) : Bool :=
  let text_clean := pyStrip text
  let cs := text_clean.data
  if cs.length < 3 || cs.length > 200 then false
  else
    let score : ℤ :=
      (if font_size > avg_font_size * (13/10) then 4
       else if font_size > avg_font_size * (11/10) then 2 else 0)
      + (if is_bold then 2 else 0)
      + (if matchNumDotParen cs then 3
         else if matchTitleCase cs then 2
         else if pyIsUpper cs && decide (2 ≤ (pySplit cs).length) then 1 else 0)
      + (if heading_keywords.any (fun kw => infixOf kw.data ((pyLower text_clean).data))
         then 1 else 0)
      + (if matchAllDigits cs || pyLower text_clean = "page"
            || pyLower text_clean = "continued" then -5 else 0)
    decide (3 ≤ score)

/-- `PDFOutlineExtractor.classify_heading_level` (`src/1a/main.py:99`).
The `max_font_size` parameter is accepted but unused, as in the source. -/
def classify_heading_level (text : String) (font_size : ℚ)
    (max_font_size : ℚ) (avg_font_size : ℚ) : String :=
  let _ := max_font_size
  let cs := (pyStrip text).data
  let size_ratio := if avg_font_size > 0 then font_size / avg_font_size else 1
  let base : ℤ := if size_ratio ≥ 3/2 then 3 else if size_ratio ≥ 6/5 then 2 else 1
  let level_score : ℤ :=
    if matchNum1 cs then max base 3
    else if matchNum2 cs then min base 2
    else if matchNum3 cs then 1
    else base
  if level_score ≥ 3 then "H1" else if level_score ≥ 2 then "H2" else "H3"

/-- One entry of the emitted outline. -/
structure Heading where
  level : String
  text : String
  page : ℕ
deriving DecidableEq

/-- Document-wide average of truthy font sizes, default 12
(`src/1a/main.py:151`). -/
def avg_of (gs : List Glyph) : ℚ :=
  let fs := truthySizes gs
  if fs.isEmpty then 12 else fs.sum / fs.length

/-- Document-wide maximum of truthy font sizes, default 12
(`src/1a/main.py:152`). -/
def max_of (gs : List Glyph) : ℚ :=
  let fs := truthySizes gs
  if fs.isEmpty then 12 else listMax fs

/-- The headings detected on one page (`src/1a/main.py:155` loop body). -/
def page_headings (avg_font_size max_font_size : ℚ) (page_num : ℕ)
    (chars : List Glyph) : List Heading :=
  if chars.isEmpty then []
  else
    (page_lines chars).flatMap fun line =>
      let text := line_text line
      if text.data.isEmpty then []
      else if is_likely_heading text (line_font_size line) (line_is_bold line)
          avg_font_size then
        [⟨classify_heading_level text (line_font_size line) max_font_size
            avg_font_size, text, page_num⟩]
      else []

/-- Deduplication by `(text.lower().strip(), page)`, first occurrence kept
(`src/1a/main.py:203`). -/
def dedupe_headings (hs : List Heading) : List Heading :=
  (hs.foldl
    (fun (acc : List (String × ℕ) × List Heading) h =>
      let key := (pyStrip (pyLower h.text), h.page)
      if key ∈ acc.1 then acc else (acc.1 ++ [key], acc.2 ++ [h]))
    ([], [])).2

/-- The final sort key: `key=lambda x: (x['page'], x['text'])`
(`src/1a/main.py:212`), i.e. page ascending then text ascending by code
points. -/
def pageTextLe (a b : Heading) : Prop :=
  a.page < b.page ∨ (a.page = b.page ∧ listLexLe a.text.data b.text.data = true)

instance : DecidableRel pageTextLe := fun a b => by
  unfold pageTextLe; infer_instance

/-- `PDFOutlineExtractor.extract_outline` (`src/1a/main.py:132`), with the
PDF decoder's per-page char stream as input. -/
def extract_outline (pages : List (List Glyph)) : List Heading :=
  let all_chars := pages.flatMap id
  if all_chars.isEmpty then []
  else
    let avg := avg_of all_chars
    let mx := max_of all_chars
    let headings := (List.enumFrom 1 pages).flatMap fun p =>
      page_headings avg mx p.1 p.2
    List.insertionSort pageTextLe (dedupe_headings headings)

/-- Strategy 2 of `PDFOutlineExtractor.extract_title`: largest-font text on
the first page (`src/1a/main.py:31`). -/
def title_from_first_page (chars : List Glyph) : String :=
  if chars.isEmpty then ""
  else
    let fs := truthySizes chars
    if fs.isEmpty then ""
    else
      let mx := listMax fs
      let title_chars := chars.filter fun c => sizeVal c ≥ mx * (9/10)
      if title_chars.isEmpty then ""
      else
        let sorted := List.insertionSort
          (fun a b => a.top < b.top ∨ (a.top = b.top ∧ a.x0 ≤ b.x0)) title_chars
        let title := pyStrip (String.mk
          (collapseWs (String.join (sorted.map (·.text))).data))
        if 3 ≤ title.length ∧ title.length ≤ 200 then title else ""

/-- `PDFOutlineExtractor.extract_title` (`src/1a/main.py:17`): metadata
strategy, then first-page largest-font strategy, then `""`.  A missing or
unreadable metadata title is `none`. -/
def extract_title (meta : Option String) (chars : List Glyph) : String :=
  match meta with
  | some t =>
    let title := pyStrip t
    if title.data ≠ [] ∧ 3 < title.length then title
    else title_from_first_page chars
  | none => title_from_first_page chars

/-- The outline-mode result object. -/
structure OutlineResult where
  title : String
  outline : List Heading
deriving DecidableEq

/-- The per-document fallback emitted on error (`src/1a/main.py:255`). -/
def fallback_result : OutlineResult := ⟨"", []⟩

/-- The batch loop of `main` (`src/1a/main.py:240`): each document's
processing either succeeds with a result or raises, in which case the
fallback is written and the loop continues with the next document. -/
def main_batch : List (Except String OutlineResult) → List OutlineResult
  | [] => []
  | .ok r :: rest => r :: main_batch rest
  | .error _ :: rest => fallback_result :: main_batch rest

end R1a

namespace R1b

open PyStr Glyphs

/-- The external NLTK collaborators used by `src/1b/main.py`: Punkt word and
sentence tokenizers, the English stop-word corpus and the Porter stemmer.
They are opaque third-party components, passed in as parameters. -/
structure NLP where
  word_tokenize : String → List String
  sent_tokenize : String → List String
  stop_words : List String
  stem : String → String

/-- `PersonaDrivenDocumentAnalyzer.persona_keywords` (`src/1b/main.py:32`),
in dict insertion order. -/
def persona_keywords : List (String × List String) :=
  [("researcher", ["methodology", "analysis", "results", "conclusion", "literature",
     "study", "research", "hypothesis", "experiment", "data", "findings", "review",
     "survey"]),
   ("student", ["concept", "definition", "example", "problem", "solution",
     "exercise", "theory", "principle", "formula", "equation", "practice", "learn"]),
   ("analyst", ["trend", "performance", "metric", "revenue", "growth", "profit",
     "market", "strategy", "forecast", "benchmark", "comparison", "financial"]),
   ("investment", ["revenue", "profit", "growth", "market", "competition",
     "strategy", "risk", "return", "valuation", "investment", "portfolio"]),
   ("business", ["strategy", "market", "revenue", "profit", "growth", "customer",
     "product", "service", "competition", "opportunity"]),
   ("technical", ["implementation", "architecture", "design", "system", "algorithm",
     "performance", "optimization", "technology", "framework"]),
   ("academic", ["theory", "concept", "principle", "methodology", "analysis",
     "study", "research", "literature", "review", "hypothesis"]),
   ("chemistry", ["reaction", "mechanism", "kinetics", "thermodynamics",
     "equilibrium", "catalyst", "synthesis", "molecule", "compound", "bond"]),
   ("biology", ["cell", "protein", "gene", "organism", "metabolism", "pathway",
     "structure", "function", "evolution", "ecology"]),
   ("physics", ["force", "energy", "momentum", "wave", "particle", "field",
     "quantum", "relativity", "mechanics", "thermodynamics"])]

/-- `PersonaDrivenDocumentAnalyzer.preprocess_text` (`src/1b/main.py:45`):
lowercase, replace `[^a-zA-Z0-9\s]` by spaces, tokenize, drop stop-words and
tokens of length at most 2, stem the rest. -/
def preprocess_text (nlp : NLP) (text : String) : List String :=
  let cleaned := String.mk ((text.data.map Char.toLower).map fun c =>
    if isAlnumAZ c || pyIsSpace c then c else ' ')
  let tokens := nlp.word_tokenize cleaned
  (tokens.filter fun tok => tok ∉ nlp.stop_words ∧ 2 < tok.length).map nlp.stem

/-- Membership-preserving union used to model the Python `set` in
`extract_keywords_from_persona_job`; every consumer of the keyword list is
order- and multiplicity-insensitive (it only runs `any` over it). -/
def keyword_union (a b : List String) : List String := a ++ b.filter (· ∉ a)

/-- `PersonaDrivenDocumentAnalyzer.extract_keywords_from_persona_job`
(`src/1b/main.py:55`). -/
def extract_keywords_from_persona_job (nlp : NLP) (persona job_to_be_done : String) :
    List String :=
  let persona_lower := pyLower persona
  let job_lower := pyLower job_to_be_done
  let persona_type :=
    ((persona_keywords.find? fun p =>
        infixOf p.1.data persona_lower.data
          || (p.2.take 3).any fun kw => infixOf kw.data persona_lower.data).map
      (·.1)).getD "general"
  let job_tokens := preprocess_text nlp job_to_be_done
  let base := ((persona_keywords.find? fun p => p.1 = persona_type).map (·.2)).getD []
  let kws := keyword_union base (job_tokens.take 20)
  let kws := if infixOf "literature review".data job_lower.data then
      keyword_union kws ["methodology", "results", "conclusion", "analysis",
        "comparison"]
    else kws
  let kws := if infixOf "exam".data job_lower.data
      || infixOf "study".data job_lower.data then
      keyword_union kws ["concept", "definition", "example", "theory", "practice"]
    else kws
  let kws := if infixOf "financial".data job_lower.data
      || infixOf "revenue".data job_lower.data then
      keyword_union kws ["revenue", "profit", "growth", "market", "financial"]
    else kws
  kws

/-- One line record produced by `extract_document_structure`
(`src/1b/main.py:143`). -/
structure DocLine where
  text : String
  level : String
  page : ℕ
  font_size : ℚ
  is_heading : Bool
deriving DecidableEq

/-- The per-line body of `extract_document_structure` (`src/1b/main.py:110`):
drop empty or short lines, classify by the page's font statistics. -/
def structure_line (avg_font_size max_font_size : ℚ) (page_num : ℕ)
    (line : List Glyph) : List DocLine :=
  let text := line_text line
  if text.data.isEmpty || text.length < 10 then []
  else
    let lfs := truthySizes line
    if lfs.isEmpty then []
    else
      let lfsz := listMax lfs
      let is_heading := decide (lfsz > avg_font_size * (11/10)) &&
        decide (text.length < 200) &&
        !(text.data.getLast? = some '.') &&
        decide ((pySplit text.data).length ≤ 15)
      let level :=
        if is_heading then
          if lfsz ≥ max_font_size * (9/10) then "H1"
          else if lfsz ≥ avg_font_size * (13/10) then "H2"
          else "H3"
        else "content"
      [⟨text, level, page_num, lfsz, is_heading⟩]

/-- `PersonaDrivenDocumentAnalyzer.extract_document_structure`
(`src/1b/main.py:84`), with the PDF decoder's per-page char stream as input.
Pages with no chars or no truthy font sizes are skipped. -/
def extract_document_structure (pages : List (List Glyph)) : List DocLine :=
  (List.enumFrom 1 pages).flatMap fun p =>
    let chars := p.2
    if chars.isEmpty then []
    else
      let fs := truthySizes chars
      if fs.isEmpty then []
      else
        let avg := fs.sum / fs.length
        let mx := listMax fs
        (page_lines chars).flatMap (structure_line avg mx p.1)

/-- `lengthScore` sub-expression of `calculate_relevance_score`
(`src/1b/main.py:197`):
`min(1.0, len(text)/100) * (1 - max(0, len(text) - 1000)/2000)`. -/
def length_score (n : ℕ) : ℚ :=
  min 1 ((n : ℚ) / 100) * (1 - max 0 ((n : ℚ) - 1000) / 2000)

/-- `PersonaDrivenDocumentAnalyzer.calculate_relevance_score`
(`src/1b/main.py:156`). -/
def calculate_relevance_score (nlp : NLP) (text : String) (keywords : List String)
    (persona job_to_be_done : String) : ℚ :=
  let text_tokens := preprocess_text nlp text
  if text_tokens.isEmpty then 0
  else
    let keyword_matches := (text_tokens.filter fun token =>
      keywords.any fun kw =>
        infixOf kw.data token.data || infixOf token.data kw.data).length
    let keyword_score : ℚ := (keyword_matches : ℚ) / (text_tokens.length : ℚ)
    let persona_lower := pyLower persona
    let job_lower := pyLower job_to_be_done
    let text_lower := pyLower text
    let hasAny (ws : List String) : Bool :=
      ws.any fun w => infixOf w.data text_lower.data
    let context_score : ℚ :=
      (if infixOf "research".data persona_lower.data &&
          hasAny ["methodology", "results", "analysis", "conclusion", "study"]
       then 3/10 else 0)
      + (if infixOf "student".data persona_lower.data &&
          hasAny ["concept", "definition", "example", "theory", "principle"]
         then 3/10 else 0)
      + (if (["analyst", "business", "investment"].any fun w =>
            infixOf w.data persona_lower.data) &&
          hasAny ["revenue", "profit", "market", "growth", "financial"]
         then 3/10 else 0)
      + (if infixOf "literature review".data job_lower.data &&
          hasAny ["methodology", "approach", "results"]
         then 1/5 else 0)
      + (if infixOf "exam".data job_lower.data &&
          hasAny ["concept", "definition", "example"]
         then 1/5 else 0)
      + (if infixOf "financial".data job_lower.data &&
          hasAny ["revenue", "profit", "financial"]
         then 1/5 else 0)
    keyword_score * (1/2) + context_score * (2/5) + length_score text.length * (1/10)

/-- A scored candidate section (`src/1b/main.py:230`). -/
structure ScoredSection where
  document : String
  section_title : String
  page_number : ℕ
  score : ℚ
  content : String
deriving DecidableEq

/-- One `extracted_sections` entry (`src/1b/main.py:269`). -/
structure ExtractedSection where
  document : String
  section_title : String
  importance_rank : ℕ
  page_number : ℕ
deriving DecidableEq

/-- One `subsection_analysis` entry (`src/1b/main.py:291`). -/
structure SubsectionEntry where
  document : String
  refined_text : String
  page_number : ℕ
deriving DecidableEq

/-- Flushing the current (heading, content) pair (`src/1b/main.py:222`):
kept only when a heading is open, the content list is non-empty and the
concatenated content has stripped length strictly greater than 50. -/
def flush_section (nlp : NLP) (keywords : List String)
    (persona job_to_be_done doc_name : String) (cur_heading : Option DocLine)
    (cur_content : List DocLine) : List ScoredSection :=
  match cur_heading with
  | none => []
  | some hd =>
    if cur_content.isEmpty then []
    else
      let content_text := String.intercalate " " (cur_content.map (·.text))
      if 50 < (pyStrip content_text).length then
        [⟨doc_name, hd.text, hd.page,
          calculate_relevance_score nlp (hd.text ++ " " ++ content_text) keywords
            persona job_to_be_done, content_text⟩]
      else []

/-- The grouping loop of `extract_relevant_sections` (`src/1b/main.py:219`):
every heading line starts a new section, content lines accumulate, and the
last open section is flushed at the end. -/
def group_loop (nlp : NLP) (keywords : List String)
    (persona job_to_be_done doc_name : String) :
    Option DocLine → List DocLine → List DocLine → List ScoredSection
  | cur_h, cur_c, [] => flush_section nlp keywords persona job_to_be_done doc_name cur_h cur_c
  | cur_h, cur_c, l :: rest =>
    if l.is_heading then
      flush_section nlp keywords persona job_to_be_done doc_name cur_h cur_c
        ++ group_loop nlp keywords persona job_to_be_done doc_name (some l) [] rest
    else group_loop nlp keywords persona job_to_be_done doc_name cur_h (cur_c ++ [l]) rest

/-- `all_sections` accumulated over all documents (`src/1b/main.py:205`).
Each document is given as its name paired with its structured line list. -/
def all_sections_of (nlp : NLP) (docs : List (String × List DocLine))
    (persona job_to_be_done : String) : List ScoredSection :=
  let keywords := extract_keywords_from_persona_job nlp persona job_to_be_done
  docs.flatMap fun d => group_loop nlp keywords persona job_to_be_done d.1 none [] d.2

/-- Descending-score order used by
`all_sections.sort(key=lambda x: x['score'], reverse=True)`
(`src/1b/main.py:261`); the Python sort is stable. -/
def scoreDesc (a b : ScoredSection) : Prop := b.score ≤ a.score

instance : DecidableRel scoreDesc := fun a b =>
  inferInstanceAs (Decidable (b.score ≤ a.score))

/-- All surviving sections, sorted by score descending (stable). -/
def ranked_sections (nlp : NLP) (docs : List (String × List DocLine))
    (persona job_to_be_done : String) : List ScoredSection :=
  List.insertionSort scoreDesc (all_sections_of nlp docs persona job_to_be_done)

/-- `top_sections = all_sections[:5]` after sorting (`src/1b/main.py:264`). -/
def top_sections (nlp : NLP) (docs : List (String × List DocLine))
    (persona job_to_be_done : String) : List ScoredSection :=
  (ranked_sections nlp docs persona job_to_be_done).take 5

/-- The refined-text excerpt of one top section (`src/1b/main.py:277`):
first `min(5, n)` sentences when more than 3 sentences exist, otherwise the
full body; then hard truncation to 500 characters plus an ellipsis marker. -/
def refine_section (nlp : NLP) (s : ScoredSection) : SubsectionEntry :=
  let sentences := nlp.sent_tokenize s.content
  let chunk :=
    if 3 < sentences.length then
      String.intercalate " " (sentences.take (min 5 sentences.length))
    else s.content
  let chunk := if 500 < chunk.length then String.mk (chunk.data.take 500) ++ "..."
    else chunk
  ⟨s.document, chunk, s.page_number⟩

/-- `PersonaDrivenDocumentAnalyzer.extract_relevant_sections`
(`src/1b/main.py:201`): the `(extracted_sections, subsection_analysis)`
pair. -/
def extract_relevant_sections (nlp : NLP) (docs : List (String × List DocLine))
    (persona job_to_be_done : String) :
    List ExtractedSection × List SubsectionEntry :=
  let top := top_sections nlp docs persona job_to_be_done
  ((List.enumFrom 1 top).map fun p =>
      ⟨p.2.document, p.2.section_title, p.1, p.2.page_number⟩,
   (top.take 3).map (refine_section nlp))

end R1b

/-! ## Concrete example inputs used by counterexamples and witnesses -/

namespace Ex

open PyStr Glyphs R1b

/-- NLTK stand-in whose word tokenizer always returns one token. -/
def nlpTok : NLP := ⟨fun _ => ["tok"], fun s => [s], [], id⟩

/-- A 3002-character body text. -/
def longText : String := String.mk (List.replicate 3002 'a')

/-- A one-glyph line near the top of page 1. -/
def gZ : Glyph := ⟨"Zebra Overview", some 20, "F", 10, 0⟩

/-- A one-glyph line further down page 1, alphabetically before `gZ`. -/
def gA : Glyph := ⟨"Alpha Overview", some 20, "F", 100, 0⟩

/-- A one-page document whose two heading lines are in reverse alphabetical
order on the page. -/
def c1Pages : List (List Glyph) := [[gZ, gA]]

/-- First page, first line: small-font heading-like text. -/
def g1 : Glyph := ⟨"Zebra Overview", some 10, "F", 10, 0⟩

/-- First page, second line: the largest-font text of the page. -/
def g2 : Glyph := ⟨"MEGA TITLE LINE", some 40, "F", 50, 0⟩

/-- NLTK stand-in whose word tokenizer returns no tokens (so every
relevance score is 0) and whose sentence tokenizer returns the whole text. -/
def nlpEmpty : NLP := ⟨fun _ => [], fun s => [s], [], id⟩

/-- A large-font heading line for the ranking pipeline. -/
def hG : Glyph := ⟨"Introduction To Things", some 20, "F", 10, 0⟩

/-- The 58-character body line under the heading. -/
def cG : Glyph :=
  ⟨"this is a body line with more than fifty characters in it!", some 10, "F", 20, 0⟩

/-- A one-page ranking-mode document: one heading, one body line. -/
def rankPages : List (List Glyph) := [[hG, cG]]

/-- The body text of `cG`. -/
def bodyText : String := "this is a body line with more than fifty characters in it!"

/-- The structured heading line produced from `hG`. -/
def hLine : DocLine := ⟨"Introduction To Things", "H1", 1, 20, true⟩

/-- The structured content line produced from `cG`. -/
def cLine : DocLine := ⟨bodyText, "content", 1, 10, false⟩

/-- The single-document input of the ranking pipeline. -/
def rankDocs : List (String × List DocLine) :=
  [("doc1.pdf", R1b.extract_document_structure rankPages)]

/-- The single surviving scored section of the example run. -/
def secIntro : ScoredSection := ⟨"doc1.pdf", "Introduction To Things", 1, 0, bodyText⟩

end Ex

/-! ## Claim C2: the length component of the relevance score -/

/-- Claim C2 counterexample: the length component is NOT clamped at 0.  At a
text of 3002 characters `length_score` is negative, and with a tokenizer
that yields one (unmatched) token, no persona/job context and no keywords,
the whole relevance score is negative as well. -/
theorem length_score_neg_at_3002 :
    R1b.length_score 3002 < 0 ∧
      R1b.calculate_relevance_score Ex.nlpTok Ex.longText [] "" "" < 0 := by
  have hls : R1b.length_score 3002 = -(1/1000 : ℚ) := by
    rw [R1b.length_score]
    rw [min_eq_left (by norm_num : (1:ℚ) ≤ (3002:ℕ)/100),
      max_eq_right (by norm_num : (0:ℚ) ≤ ((3002:ℕ):ℚ) - 1000)]
    norm_num
  constructor
  · rw [hls]; norm_num
  · have hpre : R1b.preprocess_text Ex.nlpTok Ex.longText = ["tok"] := rfl
    have hlen : Ex.longText.length = 3002 := by
      show (List.replicate 3002 'a').length = 3002
      exact List.length_replicate ..
    rw [R1b.calculate_relevance_score, hpre]
    simp only [List.isEmpty_cons, Bool.false_eq_true, if_false, List.any_nil,
      Bool.false_and, if_neg (by decide : ¬False), List.filter_nil]
    have c1 : PyStr.infixOf "research".data (PyStr.pyLower "").data = false := by decide
    have c2 : PyStr.infixOf "student".data (PyStr.pyLower "").data = false := by decide
    have c3 : (["analyst", "business", "investment"].any fun w =>
        PyStr.infixOf w.data (PyStr.pyLower "").data) = false := by decide
    have c4 : PyStr.infixOf "literature review".data (PyStr.pyLower "").data = false := by
      decide
    have c5 : PyStr.infixOf "exam".data (PyStr.pyLower "").data = false := by decide
    have c6 : PyStr.infixOf "financial".data (PyStr.pyLower "").data = false := by decide
    simp only [c1, c2, c3, c4, c5, c6, Bool.false_and, Bool.false_eq_true, if_false,
      hlen, hls]
    have hfil : List.filter (fun _ : String => false) ["tok"] = [] := rfl
    rw [hfil]
    norm_num

/-- Claim C2 (amended): the length component of the relevance score is
nonnegative exactly for texts of at most 3000 characters; beyond 3000 it is
negative and is not clamped. -/
theorem length_score_nonneg_iff (n : ℕ) : 0 ≤ R1b.length_score n ↔ n ≤ 3000 := by
  rw [R1b.length_score]
  constructor
  · intro h0
    by_contra hgt
    push_neg at hgt
    have hc : (3000:ℚ) < (n:ℚ) := by exact_mod_cast hgt
    have hmin : min 1 ((n:ℚ)/100) = 1 :=
      min_eq_left (by rw [le_div_iff₀ (by norm_num)]; linarith)
    have hmax : max 0 ((n:ℚ) - 1000) = (n:ℚ) - 1000 := max_eq_right (by linarith)
    rw [hmin, hmax] at h0
    have hdiv : (1:ℚ) < ((n:ℚ) - 1000)/2000 := by
      rw [lt_div_iff₀ (by norm_num)]; linarith
    linarith
  · intro hle
    have hc : (n:ℚ) ≤ 3000 := by exact_mod_cast hle
    rcases le_total ((n:ℚ) - 1000) 0 with h | h
    · rw [max_eq_left h]
      have hmn : (0:ℚ) ≤ min 1 ((n:ℚ)/100) := le_min (by norm_num) (by positivity)
      nlinarith
    · rw [max_eq_right h]
      have h2 : ((n:ℚ) - 1000)/2000 ≤ 1 := by
        rw [div_le_one (by norm_num)]; linarith
      have h4 : (0:ℚ) ≤ min 1 ((n:ℚ)/100) := le_min (by norm_num) (by positivity)
      exact mul_nonneg h4 (by linarith)

/-! ## Claim C6: the +4 font-size signal threshold -/

/-- Claim C6 counterexample: at font size exactly 1.3 times the average the
`+4` signal does NOT fire (the comparison is strict), so a non-bold line
with no textual signals scores only 2 and is not classified as a heading. -/
theorem font_exactly_1_3_not_heading :
    (13 : ℚ) = 10 * (13/10) ∧
      R1a.is_likely_heading "xyzqw" 13 false 10 = false := by
  refine ⟨by norm_num, ?_⟩
  have h13 : ¬((13:ℚ) > 10 * (13/10)) := by norm_num
  have h11 : (13:ℚ) > 10 * (11/10) := by norm_num
  simp only [R1a.is_likely_heading, if_neg h13, if_pos h11]
  decide

/-- Claim C6 (amended): the `+4` font-size signal requires the font size to
be strictly greater than 1.3 times the average.  At exactly 1.3 times the
average, a non-bold line with no textual-pattern or keyword signals gets
only the `+2` signal and is not classified as a heading; strictly above the
threshold it is. -/
theorem font_signal_threshold_strict (font avg : ℚ) (havg : 0 < avg) :
    (font = avg * (13/10) → R1a.is_likely_heading "xyzqw" font false avg = false) ∧
      (avg * (13/10) < font → R1a.is_likely_heading "xyzqw" font false avg = true) := by
  constructor
  · intro heq
    have h13 : ¬(font > avg * (13/10)) := by rw [heq]; exact lt_irrefl _
    have h11 : font > avg * (11/10) := by rw [heq]; nlinarith
    simp only [R1a.is_likely_heading, if_neg h13, if_pos h11]
    decide
  · intro hgt
    have h13 : font > avg * (13/10) := hgt
    simp only [R1a.is_likely_heading, if_pos h13]
    decide

/-- Witness for `font_signal_threshold_strict` at font sizes 13 and 14
against an average of 10. -/
theorem font_signal_threshold_strict_witness :
    R1a.is_likely_heading "xyzqw" 13 false 10 = false ∧
      R1a.is_likely_heading "xyzqw" 14 false 10 = true :=
  ⟨(font_signal_threshold_strict 13 10 (by norm_num)).1 (by norm_num),
   (font_signal_threshold_strict 14 10 (by norm_num)).2 (by norm_num)⟩

/-! ## Claim C5: the "1.1.1 Implementation Details" example -/

/-- Claim C5 counterexample: at font size 12 against average 10 (ratio 1.2,
which is at least 1.1) the line "1.1.1 Implementation Details" is NOT
classified as a heading: the `x.y.z` numbering matches none of the scoring
patterns of `is_likely_heading`, so the score is only 2. -/
theorem impl_details_not_heading_at_ratio_1_2 :
    (10 : ℚ) * (11/10) ≤ 12 ∧
      R1a.is_likely_heading "1.1.1 Implementation Details" 12 false 10 = false := by
  refine ⟨by norm_num, ?_⟩
  have h13 : ¬((12:ℚ) > 10 * (13/10)) := by norm_num
  have h11 : (12:ℚ) > 10 * (11/10) := by norm_num
  simp only [R1a.is_likely_heading, if_neg h13, if_pos h11]
  decide

/-- Claim C5 (amended): the line "1.1.1 Implementation Details" (not bold)
is classified as a heading exactly when its font size is strictly greater
than 1.3 times the average (the `+4` signal is its only route to the pass
threshold), and then its level is H3, forced by the `x.y.z` numbering. -/
theorem impl_details_heading_iff_above_1_3 (font avg mx : ℚ) :
    (avg * (13/10) < font →
      R1a.is_likely_heading "1.1.1 Implementation Details" font false avg = true ∧
        R1a.classify_heading_level "1.1.1 Implementation Details" font mx avg = "H3") ∧
      (font ≤ avg * (13/10) →
        R1a.is_likely_heading "1.1.1 Implementation Details" font false avg = false) := by
  constructor
  · intro hgt
    constructor
    · have h13 : font > avg * (13/10) := hgt
      simp only [R1a.is_likely_heading, if_pos h13]
      decide
    · have hm1 : PyStr.matchNum1 (PyStr.pyStrip "1.1.1 Implementation Details").data
          = false := by decide
      have hm2 : PyStr.matchNum2 (PyStr.pyStrip "1.1.1 Implementation Details").data
          = false := by decide
      have hm3 : PyStr.matchNum3 (PyStr.pyStrip "1.1.1 Implementation Details").data
          = true := by decide
      simp only [R1a.classify_heading_level, hm1, hm2, hm3, Bool.false_eq_true,
        if_false, if_true]
      decide
  · intro hle
    have h13 : ¬(font > avg * (13/10)) := not_lt.mpr hle
    by_cases h11 : font > avg * (11/10)
    · simp only [R1a.is_likely_heading, if_neg h13, if_pos h11]
      decide
    · simp only [R1a.is_likely_heading, if_neg h13, if_neg h11]
      decide

/-- Witness for `impl_details_heading_iff_above_1_3` at font sizes 14 and 12
against an average of 10. -/
theorem impl_details_heading_iff_above_1_3_witness :
    (R1a.is_likely_heading "1.1.1 Implementation Details" 14 false 10 = true ∧
      R1a.classify_heading_level "1.1.1 Implementation Details" 14 20 10 = "H3") ∧
      R1a.is_likely_heading "1.1.1 Implementation Details" 12 false 10 = false :=
  ⟨(impl_details_heading_iff_above_1_3 14 10 20).1 (by norm_num),
   (impl_details_heading_iff_above_1_3 12 10 20).2 (by norm_num)⟩

/-! ## Claim C9: per-document failure isolation in batch outline mode -/

/-- `main_batch` emits exactly one result per input document. -/
theorem main_batch_length (docs : List (Except String R1a.OutlineResult)) :
    (R1a.main_batch docs).length = docs.length := by
  induction docs with
  | nil => rfl
  | cons d rest ih => cases d <;> simp [R1a.main_batch, ih]

/-- The result for document `i` depends only on document `i`: the normal
result on success, the fallback on error. -/
theorem main_batch_getElem (docs : List (Except String R1a.OutlineResult)) (i : ℕ) :
    (R1a.main_batch docs)[i]? = (docs[i]?).map fun d =>
      match d with
      | .ok r => r
      | .error _ => R1a.fallback_result := by
  induction docs generalizing i with
  | nil => rfl
  | cons d rest ih =>
    cases d <;> cases i <;> simp [R1a.main_batch, ih]

/-- Claim C9: in batch outline mode, a per-document error yields the
fallback `{"title": "", "outline": []}` for that document, while the batch
still emits one result per document and every successfully processed
document keeps its own result. -/
theorem batch_error_isolation (docs : List (Except String R1a.OutlineResult))
    (i : ℕ) (e : String) (h : docs[i]? = some (.error e)) :
    (R1a.main_batch docs).length = docs.length ∧
      (R1a.main_batch docs)[i]? = some R1a.fallback_result ∧
      ∀ (j : ℕ) (r : R1a.OutlineResult),
        docs[j]? = some (Except.ok r) → (R1a.main_batch docs)[j]? = some r := by
  refine ⟨main_batch_length docs, ?_, ?_⟩
  · rw [main_batch_getElem, h]; rfl
  · intro j r hj
    rw [main_batch_getElem, hj]; rfl

/-- Witness for `batch_error_isolation`: a three-document batch whose middle
document raises. -/
theorem batch_error_isolation_witness :
    (R1a.main_batch [.ok ⟨"t1", []⟩, .error "boom", .ok ⟨"t2", []⟩]).length = 3 ∧
      (R1a.main_batch [.ok ⟨"t1", []⟩, .error "boom", .ok ⟨"t2", []⟩])[1]? =
        some R1a.fallback_result ∧
      (R1a.main_batch [.ok ⟨"t1", []⟩, .error "boom", .ok ⟨"t2", []⟩])[2]? =
        some ⟨"t2", []⟩ := by
  have h := batch_error_isolation [.ok ⟨"t1", []⟩, .error "boom", .ok ⟨"t2", []⟩]
    1 "boom" rfl
  exact ⟨h.1, h.2.1, h.2.2 2 ⟨"t2", []⟩ rfl⟩

/-! ## Claim C1: order of the emitted outline -/

/-- `listLexLe` is total. -/
theorem listLexLe_total : ∀ a b : List Char,
    PyStr.listLexLe a b = true ∨ PyStr.listLexLe b a = true
  | [], _ => Or.inl rfl
  | _ :: _, [] => Or.inr rfl
  | a :: as, b :: bs => by
    rcases lt_trichotomy a b with h | h | h
    · left; simp [PyStr.listLexLe, h]
    · subst h
      rcases listLexLe_total as bs with ih | ih
      · left; simp [PyStr.listLexLe, lt_irrefl, ih]
      · right; simp [PyStr.listLexLe, lt_irrefl, ih]
    · right; simp [PyStr.listLexLe, h]

/-- `listLexLe` is transitive. -/
theorem listLexLe_trans : ∀ a b c : List Char, PyStr.listLexLe a b = true →
    PyStr.listLexLe b c = true → PyStr.listLexLe a c = true
  | [], _, _ => fun _ _ => rfl
  | _ :: _, [], _ => by intro h _; simp [PyStr.listLexLe] at h
  | _ :: _, _ :: _, [] => by intro _ h; simp [PyStr.listLexLe] at h
  | a :: as, b :: bs, c :: cs => by
    intro h1 h2
    by_cases hab : a < b
    · by_cases hbc : b < c
      · simp [PyStr.listLexLe, lt_trans hab hbc]
      · by_cases hcb : c < b
        · exfalso; simp [PyStr.listLexLe, hbc, hcb] at h2
        · have hbc' : b = c := le_antisymm (not_lt.mp hcb) (not_lt.mp hbc)
          simp [PyStr.listLexLe, hbc' ▸ hab]
    · by_cases hba : b < a
      · exfalso; simp [PyStr.listLexLe, hab, hba] at h1
      · have hab' : a = b := le_antisymm (not_lt.mp hba) (not_lt.mp hab)
        subst hab'
        simp only [PyStr.listLexLe, if_neg hab] at h1
        by_cases hac : a < c
        · simp [PyStr.listLexLe, hac]
        · by_cases hca : c < a
          · exfalso; simp [PyStr.listLexLe, hac, hca] at h2
          · simp only [PyStr.listLexLe, if_neg hac, if_neg hca] at h2 ⊢
            exact listLexLe_trans as bs cs h1 h2

instance : IsTotal R1a.Heading R1a.pageTextLe :=
  ⟨fun a b => by
    rcases Nat.lt_trichotomy a.page b.page with h | h | h
    · exact Or.inl (Or.inl h)
    · rcases listLexLe_total a.text.data b.text.data with hl | hl
      · exact Or.inl (Or.inr ⟨h, hl⟩)
      · exact Or.inr (Or.inr ⟨h.symm, hl⟩)
    · exact Or.inr (Or.inl h)⟩

instance : IsTrans R1a.Heading R1a.pageTextLe :=
  ⟨fun a b c h1 h2 => by
    rcases h1 with h1 | ⟨h1e, h1l⟩
    · rcases h2 with h2 | ⟨h2e, _⟩
      · exact Or.inl (lt_trans h1 h2)
      · exact Or.inl (h2e ▸ h1)
    · rcases h2 with h2 | ⟨h2e, h2l⟩
      · exact Or.inl (h1e ▸ h2)
      · exact Or.inr ⟨h1e.trans h2e, listLexLe_trans _ _ _ h1l h2l⟩⟩

/-- Claim C1 (amended): the emitted outline is sorted by page number
ascending and, within one page, by heading text ascending in code-point
order — the sort key at `src/1a/main.py:212` is `(page, text)`, so the
within-page order is alphabetical, not positional. -/
theorem outline_sorted_by_page_then_text (pages : List (List Glyphs.Glyph)) :
    List.Sorted R1a.pageTextLe (R1a.extract_outline pages) := by
  simp only [R1a.extract_outline]
  split
  · exact List.sorted_nil
  · exact List.sorted_insertionSort R1a.pageTextLe _

/-- Claim C1 counterexample: on a one-page document whose first (topmost)
line is "Zebra Overview" and whose second line is "Alpha Overview", both
classified H3 headings, the emitted outline lists "Alpha Overview" first —
alphabetical text order, not top-to-bottom document order. -/
theorem outline_not_in_document_order :
    R1a.extract_outline Ex.c1Pages =
      [⟨"H3", "Alpha Overview", 1⟩, ⟨"H3", "Zebra Overview", 1⟩] ∧
      Ex.gZ.top < Ex.gA.top := by
  constructor
  · have havg : R1a.avg_of [Ex.gZ, Ex.gA] = 20 := by
      norm_num [R1a.avg_of, Glyphs.truthySizes, Ex.gZ, Ex.gA, List.filterMap]
    have hmax : R1a.max_of [Ex.gZ, Ex.gA] = 20 := by
      norm_num [R1a.max_of, Glyphs.truthySizes, Glyphs.listMax, Ex.gZ, Ex.gA,
        List.filterMap]
    have hph : R1a.page_headings 20 20 1 [Ex.gZ, Ex.gA] =
        [⟨"H3", "Zebra Overview", 1⟩, ⟨"H3", "Alpha Overview", 1⟩] := by
      have hpl : Glyphs.page_lines [Ex.gZ, Ex.gA] = [[Ex.gZ], [Ex.gA]] := by
        norm_num [Glyphs.page_lines, PyStr.dedupFirst, Glyphs.round1,
          Glyphs.roundHalfEven, Ex.gZ, Ex.gA, List.insertionSort,
          List.orderedInsert, List.filter]
      have hZ : R1a.is_likely_heading "Zebra Overview" 20 false 20 = true := by
        have h13 : ¬((20:ℚ) > 20 * (13/10)) := by norm_num
        have h11 : ¬((20:ℚ) > 20 * (11/10)) := by norm_num
        simp only [R1a.is_likely_heading, if_neg h13, if_neg h11]
        decide
      have hA : R1a.is_likely_heading "Alpha Overview" 20 false 20 = true := by
        have h13 : ¬((20:ℚ) > 20 * (13/10)) := by norm_num
        have h11 : ¬((20:ℚ) > 20 * (11/10)) := by norm_num
        simp only [R1a.is_likely_heading, if_neg h13, if_neg h11]
        decide
      have hcZ : R1a.classify_heading_level "Zebra Overview" 20 20 20 = "H3" := by
        have h0 : (0:ℚ) < 20 := by norm_num
        have hr1 : ¬((20:ℚ)/20 ≥ 3/2) := by norm_num
        have hr2 : ¬((20:ℚ)/20 ≥ 6/5) := by norm_num
        simp only [R1a.classify_heading_level, if_pos h0, if_neg hr1, if_neg hr2]
        decide
      have hcA : R1a.classify_heading_level "Alpha Overview" 20 20 20 = "H3" := by
        have h0 : (0:ℚ) < 20 := by norm_num
        have hr1 : ¬((20:ℚ)/20 ≥ 3/2) := by norm_num
        have hr2 : ¬((20:ℚ)/20 ≥ 6/5) := by norm_num
        simp only [R1a.classify_heading_level, if_pos h0, if_neg hr1, if_neg hr2]
        decide
      rw [R1a.page_headings, hpl]
      have htZ : Glyphs.line_text [Ex.gZ] = "Zebra Overview" := by decide
      have htA : Glyphs.line_text [Ex.gA] = "Alpha Overview" := by decide
      have hfZ : Glyphs.line_font_size [Ex.gZ] = 20 := by decide
      have hfA : Glyphs.line_font_size [Ex.gA] = 20 := by decide
      have hbZ : Glyphs.line_is_bold [Ex.gZ] = false := by decide
      have hbA : Glyphs.line_is_bold [Ex.gA] = false := by decide
      simp only [List.flatMap_cons, List.flatMap_nil, htZ, htA, hfZ, hfA,
        hbZ, hbA, hZ, hA, hcZ, hcA]
      decide
    rw [R1a.extract_outline]
    have hflat : (Ex.c1Pages.flatMap id) = [Ex.gZ, Ex.gA] := rfl
    rw [hflat]
    simp only [List.isEmpty_cons, Bool.false_eq_true, if_false, havg, hmax,
      Ex.c1Pages, List.enumFrom, List.flatMap_cons, List.flatMap_nil, hph]
    decide
  · norm_num [Ex.gZ, Ex.gA]

/-! ## Claim C7: title resolution strategies -/

/-- Claim C7 counterexample: with no metadata title, a first structural line
"Zebra Overview" that IS classified as a heading (with text length in
(3, 200)), and a larger-font line below it, `extract_title` resolves to the
largest-font text "MEGA TITLE LINE" — there is no heading-based strategy
between the metadata and largest-font strategies. -/
theorem title_ignores_first_heading :
    (Glyphs.page_lines [Ex.g1, Ex.g2]).map Glyphs.line_text =
        ["Zebra Overview", "MEGA TITLE LINE"] ∧
      R1a.is_likely_heading "Zebra Overview" 10 false (R1a.avg_of [Ex.g1, Ex.g2]) =
        true ∧
      (3 < ("Zebra Overview" : String).length ∧
        ("Zebra Overview" : String).length < 200) ∧
      R1a.extract_title none [Ex.g1, Ex.g2] = "MEGA TITLE LINE" ∧
      ("MEGA TITLE LINE" : String) ≠ "Zebra Overview" := by
  have havg : R1a.avg_of [Ex.g1, Ex.g2] = 25 := by
    norm_num [R1a.avg_of, Glyphs.truthySizes, Ex.g1, Ex.g2, List.filterMap]
  have hpl : Glyphs.page_lines [Ex.g1, Ex.g2] = [[Ex.g1], [Ex.g2]] := by
    norm_num [Glyphs.page_lines, PyStr.dedupFirst, Glyphs.round1,
      Glyphs.roundHalfEven, Ex.g1, Ex.g2, List.insertionSort,
      List.orderedInsert, List.filter]
  refine ⟨?_, ?_, by decide, ?_, by decide⟩
  · rw [hpl]; decide
  · rw [havg]
    have h13 : ¬((10:ℚ) > 25 * (13/10)) := by norm_num
    have h11 : ¬((10:ℚ) > 25 * (11/10)) := by norm_num
    simp only [R1a.is_likely_heading, if_neg h13, if_neg h11]
    decide
  · show R1a.title_from_first_page [Ex.g1, Ex.g2] = "MEGA TITLE LINE"
    have hts : Glyphs.truthySizes [Ex.g1, Ex.g2] = [10, 40] := by
      norm_num [Glyphs.truthySizes, Ex.g1, Ex.g2, List.filterMap]
    have hmx : Glyphs.listMax [10, 40] = 40 := by
      norm_num [Glyphs.listMax, max_def]
    have hfl : [Ex.g1, Ex.g2].filter
        (fun c => decide (Glyphs.sizeVal c ≥ 40 * (9/10))) = [Ex.g2] := by
      norm_num [List.filter_cons, List.filter_nil, Glyphs.sizeVal, Ex.g1, Ex.g2]
    rw [R1a.title_from_first_page]
    simp only [List.isEmpty_cons, Bool.false_eq_true, if_false, hts, hmx, hfl]
    decide

/-- Claim C7 (amended): `extract_title` tries exactly two strategies in
order: the metadata title (trimmed, length strictly greater than 3), else
the largest-font text of the first page (which may itself fall back to the
empty string).  No strategy inspects classified heading lines. -/
theorem extract_title_strategy_order (meta : Option String)
    (chars : List Glyphs.Glyph) :
    (∀ t, meta = some t → 3 < (PyStr.pyStrip t).length →
        R1a.extract_title meta chars = PyStr.pyStrip t) ∧
      ((meta = none ∨ ∃ t, meta = some t ∧ (PyStr.pyStrip t).length ≤ 3) →
        R1a.extract_title meta chars = R1a.title_from_first_page chars) := by
  constructor
  · intro t ht hlen
    subst ht
    rw [R1a.extract_title]
    have hne : (PyStr.pyStrip t).data ≠ [] := by
      intro hcon
      rw [show (PyStr.pyStrip t).length = (PyStr.pyStrip t).data.length from rfl,
        hcon] at hlen
      simp at hlen
    exact if_pos ⟨hne, hlen⟩
  · rintro (rfl | ⟨t, rfl, hlen⟩)
    · rfl
    · rw [R1a.extract_title]
      exact if_neg fun hcon => absurd hlen (not_le.mpr hcon.2)

/-- Witness for `extract_title_strategy_order`: a valid metadata title wins;
a too-short metadata title falls through to the first-page strategy. -/
theorem extract_title_strategy_order_witness :
    R1a.extract_title (some " Proper Title ") [Ex.g1, Ex.g2] = "Proper Title" ∧
      R1a.extract_title (some " ab ") [Ex.g1, Ex.g2] =
        R1a.title_from_first_page [Ex.g1, Ex.g2] := by
  constructor
  · have h := (extract_title_strategy_order (some " Proper Title ")
      [Ex.g1, Ex.g2]).1 " Proper Title " rfl (by decide)
    rw [h]; decide
  · exact (extract_title_strategy_order (some " ab ") [Ex.g1, Ex.g2]).2
      (Or.inr ⟨" ab ", rfl, by decide⟩)

/-! ## Claim C3: dense importance ranks in descending score order -/

/-- First components of `enumFrom` are consecutive indices. -/
theorem enumFrom_map_fst_eq_range' (n : ℕ) (l : List α) :
    (List.enumFrom n l).map Prod.fst = List.range' n l.length := by
  induction l generalizing n with
  | nil => rfl
  | cons a l ih => simp [List.enumFrom, List.range', ih]

/-- Second components of `enumFrom` are the original list. -/
theorem enumFrom_map_snd_eq_self (n : ℕ) (l : List α) :
    (List.enumFrom n l).map Prod.snd = l := by
  induction l generalizing n with
  | nil => rfl
  | cons a l ih => simp [List.enumFrom, ih]

instance : IsTotal R1b.ScoredSection R1b.scoreDesc :=
  ⟨fun a b => le_total b.score a.score⟩

instance : IsTrans R1b.ScoredSection R1b.scoreDesc :=
  ⟨fun _ _ _ h1 h2 => le_trans h2 h1⟩

/-- The stable descending sort permutes the surviving sections. -/
theorem ranked_sections_length (nlp : R1b.NLP) (docs : List (String × List R1b.DocLine))
    (persona job : String) :
    (R1b.ranked_sections nlp docs persona job).length =
      (R1b.all_sections_of nlp docs persona job).length :=
  (List.perm_insertionSort R1b.scoreDesc _).length_eq

/-- Claim C3: the `importance_rank` values of `extracted_sections` are
exactly the dense sequence `1..K` with `K = min 5 (number of surviving
sections)`, the selected sections are sorted by score descending, and the
k-th extracted entry is rendered from the k-th best section. -/
theorem importance_ranks_dense_desc (nlp : R1b.NLP)
    (docs : List (String × List R1b.DocLine)) (persona job : String) :
    (R1b.extract_relevant_sections nlp docs persona job).1.map (·.importance_rank) =
        List.range' 1 (min 5 (R1b.all_sections_of nlp docs persona job).length) ∧
      List.Sorted R1b.scoreDesc (R1b.top_sections nlp docs persona job) ∧
      (R1b.extract_relevant_sections nlp docs persona job).1.map
          (fun e => (e.document, e.section_title, e.page_number)) =
        (R1b.top_sections nlp docs persona job).map
          (fun s => (s.document, s.section_title, s.page_number)) := by
  refine ⟨?_, ?_, ?_⟩
  · show ((List.enumFrom 1 (R1b.top_sections nlp docs persona job)).map _).map _ = _
    rw [List.map_map]
    have : (R1b.top_sections nlp docs persona job).length =
        min 5 (R1b.all_sections_of nlp docs persona job).length := by
      rw [R1b.top_sections, List.length_take, ranked_sections_length]
    rw [← this, ← enumFrom_map_fst_eq_range' 1]
    rfl
  · exact List.Pairwise.sublist (List.take_sublist 5 _)
      (List.sorted_insertionSort R1b.scoreDesc _)
  · have htop := enumFrom_map_snd_eq_self 1 (R1b.top_sections nlp docs persona job)
    show ((List.enumFrom 1 (R1b.top_sections nlp docs persona job)).map _).map _ = _
    rw [List.map_map]
    conv_rhs => rw [← htop]
    rw [List.map_map]
    rfl

/-! ## Claim C4: the 50-character noise filter -/

/-- Stripping never lengthens a string. -/
theorem pyStrip_length_le (s : String) : (PyStr.pyStrip s).length ≤ s.length := by
  show (PyStr.pyStripList s.data).length ≤ s.data.length
  rw [PyStr.pyStripList]
  calc ((s.data.dropWhile PyStr.pyIsSpace).reverse.dropWhile PyStr.pyIsSpace).reverse.length
      = ((s.data.dropWhile PyStr.pyIsSpace).reverse.dropWhile PyStr.pyIsSpace).length := by
        rw [List.length_reverse]
    _ ≤ (s.data.dropWhile PyStr.pyIsSpace).reverse.length :=
        (List.dropWhile_suffix _).length_le
    _ = (s.data.dropWhile PyStr.pyIsSpace).length := by rw [List.length_reverse]
    _ ≤ s.data.length := (List.dropWhile_suffix _).length_le

/-- Every section emitted by `flush_section` has a stripped body longer than
50 characters. -/
theorem flush_section_content (nlp : R1b.NLP) (kw : List String)
    (persona job dn : String) (cur_h : Option R1b.DocLine)
    (cur_c : List R1b.DocLine) :
    ∀ s ∈ R1b.flush_section nlp kw persona job dn cur_h cur_c,
      50 < (PyStr.pyStrip s.content).length := by
  intro s hs
  rcases cur_h with _ | hd
  · simp [R1b.flush_section] at hs
  · rw [show R1b.flush_section nlp kw persona job dn (some hd) cur_c =
        (if cur_c.isEmpty then []
         else
          let content_text := String.intercalate " " (cur_c.map (·.text))
          if 50 < (PyStr.pyStrip content_text).length then
            [⟨dn, hd.text, hd.page,
              R1b.calculate_relevance_score nlp (hd.text ++ " " ++ content_text) kw
                persona job, content_text⟩]
          else []) from rfl] at hs
    by_cases hc : cur_c.isEmpty
    · rw [if_pos hc] at hs; simp at hs
    · rw [if_neg hc] at hs
      by_cases hlen : 50 <
          (PyStr.pyStrip (String.intercalate " " (cur_c.map (·.text)))).length
      · rw [if_pos hlen] at hs
        rw [List.mem_singleton.mp hs]
        exact hlen
      · rw [if_neg hlen] at hs; simp at hs

/-- Every section produced by the grouping loop has a stripped body longer
than 50 characters. -/
theorem group_loop_content (nlp : R1b.NLP) (kw : List String)
    (persona job dn : String) :
    ∀ (lines : List R1b.DocLine) (cur_h : Option R1b.DocLine)
      (cur_c : List R1b.DocLine),
      ∀ s ∈ R1b.group_loop nlp kw persona job dn cur_h cur_c lines,
        50 < (PyStr.pyStrip s.content).length := by
  intro lines
  induction lines with
  | nil => exact fun cur_h cur_c => flush_section_content nlp kw persona job dn cur_h cur_c
  | cons l rest ih =>
    intro cur_h cur_c s hs
    rw [R1b.group_loop] at hs
    by_cases hl : l.is_heading = true
    · rw [if_pos hl, List.mem_append] at hs
      rcases hs with hs | hs
      · exact flush_section_content nlp kw persona job dn cur_h cur_c s hs
      · exact ih (some l) [] s hs
    · rw [if_neg hl] at hs
      exact ih cur_h (cur_c ++ [l]) s hs

/-- Membership in the top sections implies membership among all surviving
sections. -/
theorem top_sections_subset (nlp : R1b.NLP) (docs : List (String × List R1b.DocLine))
    (persona job : String) :
    ∀ s ∈ R1b.top_sections nlp docs persona job,
      s ∈ R1b.all_sections_of nlp docs persona job := by
  intro s hs
  have h1 : s ∈ R1b.ranked_sections nlp docs persona job :=
    (List.take_sublist 5 _).mem hs
  exact (List.perm_insertionSort R1b.scoreDesc _).mem_iff.mp h1

/-- Claim C4: a section whose concatenated body, after stripping, is not
longer than 50 characters is dropped before scoring — every surviving
section's stripped body exceeds 50 characters — and consequently no section
with body length below 50 appears among the ranked top sections. -/
theorem short_sections_dropped (nlp : R1b.NLP)
    (docs : List (String × List R1b.DocLine)) (persona job : String) :
    (∀ s ∈ R1b.all_sections_of nlp docs persona job,
        50 < (PyStr.pyStrip s.content).length) ∧
      ∀ s ∈ R1b.top_sections nlp docs persona job, ¬s.content.length < 50 := by
  have hall : ∀ s ∈ R1b.all_sections_of nlp docs persona job,
      50 < (PyStr.pyStrip s.content).length := by
    intro s hs
    rw [R1b.all_sections_of] at hs
    rcases List.mem_flatMap.mp hs with ⟨d, _, hmem⟩
    exact group_loop_content nlp _ persona job d.1 d.2 none [] s hmem
  refine ⟨hall, fun s hs => ?_⟩
  have h1 := hall s (top_sections_subset nlp docs persona job s hs)
  have h2 := pyStrip_length_le s.content
  omega

/-! ## Claim C8: refined text length bound -/

/-- Claim C8: every `refined_text` in `subsection_analysis` has length at
most 503 characters (at most 500 characters of excerpt plus the 3-character
"..." marker). -/
theorem refined_text_le_503 (nlp : R1b.NLP)
    (docs : List (String × List R1b.DocLine)) (persona job : String) :
    ∀ e ∈ (R1b.extract_relevant_sections nlp docs persona job).2,
      e.refined_text.length ≤ 503 := by
  intro e he
  rcases List.mem_map.mp he with ⟨s, _, rfl⟩
  rw [R1b.refine_section]
  set chunk := if 3 < (nlp.sent_tokenize s.content).length then
      String.intercalate " "
        ((nlp.sent_tokenize s.content).take (min 5 (nlp.sent_tokenize s.content).length))
    else s.content with hchunk
  by_cases h : 500 < chunk.length
  · rw [if_pos h]
    show (String.mk (chunk.data.take 500) ++ "...").length ≤ 503
    rw [String.length_append]
    have h1 : (String.mk (chunk.data.take 500)).length ≤ 500 := by
      show (chunk.data.take 500).length ≤ 500
      simp
    have h2 : ("..." : String).length = 3 := rfl
    omega
  · rw [if_neg h]
    show chunk.length ≤ 503
    omega

/-! ## Claim C10: lines shorter than 10 characters are discarded -/

/-- Every line record emitted by `structure_line` keeps a text of at least
10 characters. -/
theorem structure_line_len (avg mx : ℚ) (pn : ℕ) (line : List Glyphs.Glyph) :
    ∀ s ∈ R1b.structure_line avg mx pn line, 10 ≤ s.text.length := by
  intro s hs
  rw [R1b.structure_line] at hs
  by_cases h1 : ((Glyphs.line_text line).data.isEmpty
      || decide ((Glyphs.line_text line).length < 10)) = true
  · rw [if_pos h1] at hs; simp at hs
  · rw [if_neg h1] at hs
    simp only [Bool.or_eq_true, decide_eq_true_eq, not_or] at h1
    by_cases h2 : (Glyphs.truthySizes line).isEmpty = true
    · rw [if_pos h2] at hs; simp at hs
    · rw [if_neg h2] at hs
      rw [List.mem_singleton.mp hs]
      show 10 ≤ (Glyphs.line_text line).length
      omega

/-- Claim C10, document-structure part packaged separately for reuse. -/
theorem structure_text_len (pages : List (List Glyphs.Glyph)) :
    ∀ l ∈ R1b.extract_document_structure pages, 10 ≤ l.text.length := by
  intro l hl
  rw [R1b.extract_document_structure] at hl
  rcases List.mem_flatMap.mp hl with ⟨p, _, hmem⟩
  simp only at hmem
  by_cases h1 : p.2.isEmpty = true
  · rw [if_pos h1] at hmem; simp at hmem
  · rw [if_neg h1] at hmem
    by_cases h2 : (Glyphs.truthySizes p.2).isEmpty = true
    · rw [if_pos h2] at hmem; simp at hmem
    · rw [if_neg h2] at hmem
      rcases List.mem_flatMap.mp hmem with ⟨line, _, hmem2⟩
      exact structure_line_len _ _ _ _ l hmem2

/-- Every section title emitted by `flush_section` satisfies any predicate
holding for the open heading's text. -/
theorem flush_section_title (nlp : R1b.NLP) (kw : List String)
    (persona job dn : String) (P : String → Prop) (cur_h : Option R1b.DocLine)
    (cur_c : List R1b.DocLine) (hh : ∀ h, cur_h = some h → P h.text) :
    ∀ s ∈ R1b.flush_section nlp kw persona job dn cur_h cur_c,
      P s.section_title := by
  intro s hs
  rcases cur_h with _ | hd
  · simp [R1b.flush_section] at hs
  · rw [show R1b.flush_section nlp kw persona job dn (some hd) cur_c =
        (if cur_c.isEmpty then []
         else
          let content_text := String.intercalate " " (cur_c.map (·.text))
          if 50 < (PyStr.pyStrip content_text).length then
            [⟨dn, hd.text, hd.page,
              R1b.calculate_relevance_score nlp (hd.text ++ " " ++ content_text) kw
                persona job, content_text⟩]
          else []) from rfl] at hs
    by_cases hc : cur_c.isEmpty
    · rw [if_pos hc] at hs; simp at hs
    · rw [if_neg hc] at hs
      by_cases hlen : 50 <
          (PyStr.pyStrip (String.intercalate " " (cur_c.map (·.text)))).length
      · rw [if_pos hlen] at hs
        rw [List.mem_singleton.mp hs]
        exact hh hd rfl
      · rw [if_neg hlen] at hs; simp at hs

/-- Every section title produced by the grouping loop is the text of some
input line (here: satisfies any predicate holding for all line texts). -/
theorem group_loop_title (nlp : R1b.NLP) (kw : List String)
    (persona job dn : String) (P : String → Prop) :
    ∀ (lines : List R1b.DocLine) (cur_h : Option R1b.DocLine)
      (cur_c : List R1b.DocLine), (∀ l ∈ lines, P l.text) →
      (∀ h, cur_h = some h → P h.text) →
      ∀ s ∈ R1b.group_loop nlp kw persona job dn cur_h cur_c lines,
        P s.section_title := by
  intro lines
  induction lines with
  | nil =>
    exact fun cur_h cur_c _ hh =>
      flush_section_title nlp kw persona job dn P cur_h cur_c hh
  | cons l rest ih =>
    intro cur_h cur_c hlines hh s hs
    rw [R1b.group_loop] at hs
    by_cases hl : l.is_heading = true
    · rw [if_pos hl, List.mem_append] at hs
      rcases hs with hs | hs
      · exact flush_section_title nlp kw persona job dn P cur_h cur_c hh s hs
      · refine ih (some l) [] (fun x hx => hlines x (List.mem_cons_of_mem l hx))
          (fun h heq => ?_) s hs
        injection heq with h2
        rw [← h2]
        exact hlines l (List.mem_cons_self l rest)
    · rw [if_neg hl] at hs
      exact ih cur_h (cur_c ++ [l]) (fun x hx => hlines x (List.mem_cons_of_mem l hx))
        hh s hs

/-- Claim C10: in ranking mode every line whose stripped text is shorter
than 10 characters is discarded before classification — every structured
line keeps at least 10 characters of text — so a 7-character heading such as
"Summary" can never start a section in the ranked output. -/
theorem short_lines_never_rank :
    (∀ pages : List (List Glyphs.Glyph),
        ∀ l ∈ R1b.extract_document_structure pages, 10 ≤ l.text.length) ∧
      ∀ (nlp : R1b.NLP) (docsrc : List (String × List (List Glyphs.Glyph)))
        (persona job : String),
        ∀ e ∈ (R1b.extract_relevant_sections nlp
            (docsrc.map fun d => (d.1, R1b.extract_document_structure d.2))
            persona job).1,
          10 ≤ e.section_title.length ∧ e.section_title ≠ "Summary" := by
  refine ⟨structure_text_len, ?_⟩
  intro nlp docsrc persona job e he
  set docs := docsrc.map fun d => (d.1, R1b.extract_document_structure d.2) with hdocs
  have hlen : 10 ≤ e.section_title.length := by
    rcases List.mem_map.mp he with ⟨p, hp, rfl⟩
    have hsnd : p.2 ∈ R1b.top_sections nlp docs persona job := by
      have : p.2 ∈ (List.enumFrom 1 (R1b.top_sections nlp docs persona job)).map
          Prod.snd := List.mem_map_of_mem Prod.snd hp
      rwa [enumFrom_map_snd_eq_self] at this
    have hall := top_sections_subset nlp docs persona job p.2 hsnd
    rw [R1b.all_sections_of] at hall
    rcases List.mem_flatMap.mp hall with ⟨d, hd, hmem⟩
    rcases List.mem_map.mp hd with ⟨d0, _, rfl⟩
    exact group_loop_title nlp _ persona job _ (fun t => 10 ≤ t.length) _ none []
      (fun l hl => structure_text_len d0.2 l hl) (fun h heq => by cases heq) p.2 hmem
  exact ⟨hlen, fun hcon => absurd (hcon ▸ hlen) (by decide)⟩

/-! ## Concrete evaluation of the ranking pipeline example -/

/-- The example ranking-mode page yields one heading and one content line. -/
theorem rank_structure_eval :
    R1b.extract_document_structure Ex.rankPages = [Ex.hLine, Ex.cLine] := by
  have hts : Glyphs.truthySizes [Ex.hG, Ex.cG] = [20, 10] := by decide
  have hpl : Glyphs.page_lines [Ex.hG, Ex.cG] = [[Ex.hG], [Ex.cG]] := by
    norm_num [Glyphs.page_lines, PyStr.dedupFirst, Glyphs.round1,
      Glyphs.roundHalfEven, Ex.hG, Ex.cG, List.insertionSort,
      List.orderedInsert, List.filter]
  have havg : (([20, 10] : List ℚ).sum / (([20, 10] : List ℚ).length : ℚ)) = 15 := by
    norm_num
  have hsl1 : R1b.structure_line 15 20 1 [Ex.hG] = [Ex.hLine] := by
    have ht : Glyphs.line_text [Ex.hG] = "Introduction To Things" := by decide
    have hf : Glyphs.truthySizes [Ex.hG] = [20] := by decide
    have hc1 : decide ((Glyphs.listMax [20] : ℚ) > 15 * (11/10)) = true :=
      decide_eq_true (by norm_num [Glyphs.listMax])
    have hc2 : ((Glyphs.listMax [20] : ℚ) ≥ 20 * (9/10)) := by
      norm_num [Glyphs.listMax]
    rw [R1b.structure_line]
    simp only [ht, hf, hc1, if_pos hc2]
    decide
  have hsl2 : R1b.structure_line 15 20 1 [Ex.cG] = [Ex.cLine] := by
    have ht : Glyphs.line_text [Ex.cG] = Ex.bodyText := by decide
    have hf : Glyphs.truthySizes [Ex.cG] = [10] := by decide
    have hc1 : decide ((Glyphs.listMax [10] : ℚ) > 15 * (11/10)) = false :=
      decide_eq_false (by norm_num [Glyphs.listMax])
    rw [R1b.structure_line]
    simp only [ht, hf, hc1]
    decide
  have hmx : Glyphs.listMax [20, 10] = 20 := by norm_num [Glyphs.listMax, max_def]
  rw [R1b.extract_document_structure]
  simp only [Ex.rankPages, List.enumFrom, List.flatMap_cons, List.flatMap_nil,
    List.isEmpty_cons, Bool.false_eq_true, if_false, hts, havg, hmx, hpl,
    hsl1, hsl2]
  decide

/-- End-to-end evaluation of the ranking pipeline on the example input. -/
theorem rank_pipeline_eval :
    R1b.top_sections Ex.nlpEmpty Ex.rankDocs "p" "j" = [Ex.secIntro] ∧
      R1b.extract_relevant_sections Ex.nlpEmpty Ex.rankDocs "p" "j" =
        ([⟨"doc1.pdf", "Introduction To Things", 1, 1⟩],
         [⟨"doc1.pdf", Ex.bodyText, 1⟩]) := by
  have hdocs : Ex.rankDocs = [("doc1.pdf", [Ex.hLine, Ex.cLine])] := by
    rw [Ex.rankDocs, rank_structure_eval]
  rw [hdocs]
  exact ⟨by decide, by decide⟩

/-- Witness for `short_sections_dropped`: the example's single surviving
section has a 58-character body. -/
theorem short_sections_dropped_witness : ¬Ex.secIntro.content.length < 50 :=
  (short_sections_dropped Ex.nlpEmpty Ex.rankDocs "p" "j").2 Ex.secIntro
    (by rw [rank_pipeline_eval.1]; exact List.mem_singleton.mpr rfl)

/-- Witness for `refined_text_le_503` on the example's subsection entry. -/
theorem refined_text_le_503_witness :
    (⟨"doc1.pdf", Ex.bodyText, 1⟩ : R1b.SubsectionEntry).refined_text.length ≤ 503 :=
  refined_text_le_503 Ex.nlpEmpty Ex.rankDocs "p" "j" ⟨"doc1.pdf", Ex.bodyText, 1⟩
    (by rw [rank_pipeline_eval.2]; exact List.mem_singleton.mpr rfl)

/-- Witness for `short_lines_never_rank` on the example run. -/
theorem short_lines_never_rank_witness :
    10 ≤ Ex.hLine.text.length ∧
      10 ≤ (⟨"doc1.pdf", "Introduction To Things", 1, 1⟩ :
          R1b.ExtractedSection).section_title.length ∧
        (⟨"doc1.pdf", "Introduction To Things", 1, 1⟩ :
          R1b.ExtractedSection).section_title ≠ "Summary" := by
  constructor
  · exact short_lines_never_rank.1 Ex.rankPages Ex.hLine
      (by rw [rank_structure_eval]; exact List.mem_cons_self ..)
  · exact short_lines_never_rank.2 Ex.nlpEmpty [("doc1.pdf", Ex.rankPages)] "p" "j"
      ⟨"doc1.pdf", "Introduction To Things", 1, 1⟩
      (by show _ ∈ (R1b.extract_relevant_sections Ex.nlpEmpty Ex.rankDocs "p" "j").1
          rw [rank_pipeline_eval.2]
          exact List.mem_singleton.mpr rfl)
